import Mathlib

/-!
Verification of the rpn2tex pipeline: a shallow embedding of the lexer
(src/rpn2tex/lexer.py), the stack-based RPN parser (src/rpn2tex/parser.py),
the LaTeX generator (src/rpn2tex/latex_gen.py) and the error formatter
(src/rpn2tex/errors.py), followed by theorems settling the spec claims.

Conventions of the embedding:
  - Python exceptions become `Except` errors carrying message/line/column.
  - The scanning loop of `Lexer.tokenize` is driven by a fuel parameter;
    every iteration consumes at least one input character, so a fuel of
    `text.length + 1` always suffices (proved below as `tokenize_no_fuel_error`).
  - Dictionary lookups that can raise `KeyError` in Python
    (`BINARY_OPS`, `PRECEDENCE`) return `Option` values.
  - The single-quote character used inside Python error messages is built
    with `Char.ofNat 39`.
-/

namespace Rpn2Tex

/-- Equality on `Except` results is decidable when it is on both components. -/
instance {ε α : Type} [DecidableEq ε] [DecidableEq α] : DecidableEq (Except ε α) := fun x y =>
  match x, y with
  | .error a, .error b =>
    if h : a = b then .isTrue (by rw [h]) else .isFalse (fun hh => h (by injection hh))
  | .ok a, .ok b =>
    if h : a = b then .isTrue (by rw [h]) else .isFalse (fun hh => h (by injection hh))
  | .error _, .ok _ => .isFalse (fun hh => Except.noConfusion hh)
  | .ok _, .error _ => .isFalse (fun hh => Except.noConfusion hh)

/-- Token kinds, from tokens.py `TokenType`. -/
inductive TokenType where
  | NUMBER
  | PLUS
  | MINUS
  | MULT
  | DIV
  | EOF
deriving DecidableEq, Repr

/-- Lexical token, from tokens.py `Token`: kind, literal text, 1-based position. -/
structure Token where
  type : TokenType
  value : String
  line : Nat
  column : Nat
deriving DecidableEq, Repr

/-- Lexer failure record, from lexer.py `LexerError`. -/
structure LexerError where
  message : String
  line : Nat
  column : Nat
deriving DecidableEq, Repr

/-- The ASCII single-quote character, used when building error messages. -/
def squote : String := String.mk [Char.ofNat 39]

/-- Message built by lexer.py line 175: unexpected-character error text. -/
def unexpectedCharMsg (c : String) : String :=
  "Unexpected character " ++ squote ++ c ++ squote

/-- Position update of `Lexer._advance` (lexer.py lines 120-129): consuming a
newline moves to the next line and resets the column, any other character
advances the column. -/
def advancePos (c : Char) (line column : Nat) : Nat × Nat :=
  if c = '\n' then (line + 1, 1) else (line, column + 1)

/-- Whitespace set of `Lexer._skip_whitespace` (lexer.py line 133). -/
def isSpaceChar (c : Char) : Bool :=
  c = ' ' || c = '\t' || c = '\n' || c = '\r'

/-- Loop of `Lexer._skip_whitespace` (lexer.py lines 131-134): consume leading
whitespace, returning the remaining input and updated position. -/
def skipWhitespace : List Char → Nat → Nat → List Char × Nat × Nat
  | [], line, column => ([], line, column)
  | c :: cs, line, column =>
    if isSpaceChar c then
      match advancePos c line column with
      | (l1, c1) => skipWhitespace cs l1 c1
    else (c :: cs, line, column)

/-- Digit-consuming loop of `Lexer._scan_number` (lexer.py lines 191-192 and
197-198): consume a maximal run of decimal digits, returning the digits, the
remaining input and the updated position. -/
def scanDigits : List Char → Nat → Nat → List Char × List Char × Nat × Nat
  | [], line, column => ([], [], line, column)
  | c :: cs, line, column =>
    if c.isDigit then
      let p := advancePos c line column
      let r := scanDigits cs p.1 p.2
      (c :: r.1, r.2.1, r.2.2.1, r.2.2.2)
    else ([], c :: cs, line, column)

/-- Body of `Lexer._scan_number` (lexer.py lines 177-200): integer part, then
an optional single dot followed by more digits. A second dot is never
consumed. -/
def scanNumber (pre : String) (cs : List Char) (line column startLine startColumn : Nat) :
    Token × List Char × Nat × Nat :=
  let r1 := scanDigits cs line column
  let value := pre ++ String.mk r1.1
  match r1.2.1 with
  | '.' :: cs2 =>
    let p := advancePos '.' r1.2.2.1 r1.2.2.2
    let r2 := scanDigits cs2 p.1 p.2
    (⟨.NUMBER, value ++ "." ++ String.mk r2.1, startLine, startColumn⟩, r2.2.1, r2.2.2.1, r2.2.2.2)
  | _ => (⟨.NUMBER, value, startLine, startColumn⟩, r1.2.1, r1.2.2.1, r1.2.2.2)

/-- Body of `Lexer._scan_token` (lexer.py lines 136-175): single-character
operators, the one-character lookahead after a minus sign, numbers, and the
invalid-character failure. The empty case mirrors `_peek` returning the empty
string, which falls through to the invalid-character branch. -/
def scanToken : List Char → Nat → Nat → Except LexerError (Token × List Char × Nat × Nat)
  | [], line, column => .error ⟨unexpectedCharMsg "", line, column⟩
  | c :: cs, line, column =>
    let p := advancePos c line column
    if c = '+' then
      .ok (⟨.PLUS, "+", line, column⟩, cs, p.1, p.2)
    else if c = '-' then
      match cs with
      | d :: _ =>
        if d.isDigit then .ok (scanNumber "-" cs p.1 p.2 line column)
        else .ok (⟨.MINUS, "-", line, column⟩, cs, p.1, p.2)
      | [] => .ok (⟨.MINUS, "-", line, column⟩, cs, p.1, p.2)
    else if c = '*' then
      .ok (⟨.MULT, "*", line, column⟩, cs, p.1, p.2)
    else if c = '/' then
      .ok (⟨.DIV, "/", line, column⟩, cs, p.1, p.2)
    else if c.isDigit then
      .ok (scanNumber "" (c :: cs) line column line column)
    else
      .error ⟨unexpectedCharMsg (String.mk [c]), line, column⟩

/-- Loop of `Lexer.tokenize` (lexer.py lines 98-108), driven by fuel: skip
whitespace, stop with the EOF token at the end of input, otherwise scan one
token and continue. Every iteration consumes at least one character, so
`tokenize` below always supplies enough fuel. -/
def tokenizeFuel : Nat → List Char → Nat → Nat → Except LexerError (List Token)
  | 0, _, line, column => .error ⟨"out of fuel", line, column⟩
  | fuel + 1, cs, line, column =>
    let w := skipWhitespace cs line column
    match w.1 with
    | [] => .ok [⟨.EOF, "", w.2.1, w.2.2⟩]
    | c :: cs2 =>
      match scanToken (c :: cs2) w.2.1 w.2.2 with
      | .error e => .error e
      | .ok (tok, rest, l2, c2) =>
        match tokenizeFuel fuel rest l2 c2 with
        | .error e => .error e
        | .ok toks => .ok (tok :: toks)

/-- Entry point `Lexer.tokenize` (lexer.py lines 85-108), starting at line 1,
column 1. -/
def tokenize (text : String) : Except LexerError (List Token) :=
  tokenizeFuel (text.length + 1) text.data 1 1

/-- AST of ast_nodes.py: a numeric literal or a binary operation, each tagged
with the 1-based line/column of its defining token. -/
inductive Expr where
  | Number (line column : Nat) (value : String)
  | BinaryOp (line column : Nat) (operator : String) (left right : Expr)
deriving DecidableEq, Repr

/-- Parser failure record, from parser.py `ParserError`: the message together
with the line/column of the offending token. -/
structure ParserError where
  message : String
  line : Nat
  column : Nat
deriving DecidableEq, Repr

/-- Test of parser.py lines 115-120: is the token one of the four operator
kinds. -/
def isOpType (ty : TokenType) : Bool :=
  ty = .PLUS || ty = .MINUS || ty = .MULT || ty = .DIV

/-- Lookup `op_map` of parser.py lines 131-137. The default case is
unreachable: the map is consulted only for the four operator kinds, where a
Python lookup would otherwise raise `KeyError`. -/
def opStr : TokenType → String
  | .PLUS => "+"
  | .MINUS => "-"
  | .MULT => "*"
  | .DIV => "/"
  | _ => ""

/-- Message of parser.py lines 122-125: operator applied with fewer than two
stack items. -/
def insufficientMsg (v : String) : String :=
  "Operator " ++ squote ++ v ++ squote ++ " requires two operands"

/-- Message of parser.py lines 160-166: more than one value left on the
stack after the scan. -/
def excessMsg (n : Nat) : String :=
  "Invalid RPN: " ++ Nat.repr n ++ " values remain on stack (missing operators?)"

/-- Message of parser.py line 153: the defensive branch for a token kind
outside the known set. -/
def unexpectedTokenMsg (v : String) : String :=
  "Unexpected token " ++ squote ++ v ++ squote

/-- Post-scan validation of parser.py lines 155-168: empty stack fails with
"Empty expression" at the EOF token, more than one item fails with the
excess message at the EOF token, exactly one item is returned as the root. -/
def finishParse (eof : Token) (stack : List Expr) : Except ParserError Expr :=
  match stack with
  | [] => .error ⟨"Empty expression", eof.line, eof.column⟩
  | [x] => .ok x
  | xs => .error ⟨excessMsg xs.length, eof.line, eof.column⟩

/-- Loop of `Parser.parse` (parser.py lines 102-168) over the token list with
an explicit operand stack. The `eof` argument is `tokens[-1]`, used by the
post-scan validation. The empty-list case mirrors the `IndexError` Python
would raise when the stream lacks an EOF token; lexer output always ends in
EOF, so it is never reached on pipeline input. -/
def parseLoop (eof : Token) : List Token → List Expr → Except ParserError Expr
  | [], _ => .error ⟨"IndexError: token stream exhausted without EOF", 0, 0⟩
  | t :: ts, stack =>
    if t.type = .NUMBER then
      parseLoop eof ts (.Number t.line t.column t.value :: stack)
    else if isOpType t.type then
      match stack with
      | right :: left :: rest =>
        parseLoop eof ts (.BinaryOp t.line t.column (opStr t.type) left right :: rest)
      | _ => .error ⟨insufficientMsg t.value, t.line, t.column⟩
    else if t.type = .EOF then
      finishParse eof stack
    else
      .error ⟨unexpectedTokenMsg t.value, t.line, t.column⟩

/-- Entry point `Parser.parse` (parser.py lines 88-168): run the loop with an
empty stack; `tokens[-1]` supplies the EOF position for the post-scan
validation (the default is never consulted for nonempty lexer output). -/
def parse (tokens : List Token) : Except ParserError Expr :=
  parseLoop (tokens.getLastD ⟨.EOF, "", 1, 1⟩) tokens []

/-- Operator-to-LaTeX dictionary `LaTeXGenerator.BINARY_OPS`
(latex_gen.py lines 47-52); a miss means a Python `KeyError`. -/
def BINARY_OPS (op : String) : Option String :=
  if op = "+" then some "+"
  else if op = "-" then some "-"
  else if op = "*" then some "\\times"
  else if op = "/" then some "\\div"
  else none

/-- Precedence dictionary `LaTeXGenerator.PRECEDENCE` (latex_gen.py lines
57-62); a miss means a Python `KeyError`. -/
def PRECEDENCE (op : String) : Option Nat :=
  if op = "+" then some 1
  else if op = "-" then some 1
  else if op = "*" then some 2
  else if op = "/" then some 2
  else none

/-- Predicate `LaTeXGenerator._needs_parens` (latex_gen.py lines 143-180):
a `Number` child never needs parentheses; a `BinaryOp` child needs them when
its precedence is lower than the parent, or equal while the child is the
right operand and the CHILD operator is "-" or "/". -/
def needsParens (child : Expr) (parentPrecedence : Nat) (isRight : Bool) : Option Bool :=
  match child with
  | .Number _ _ _ => some false
  | .BinaryOp _ _ operator _ _ =>
    match PRECEDENCE operator with
    | none => none
    | some childPrecedence =>
      if childPrecedence < parentPrecedence then some true
      else some (childPrecedence == parentPrecedence && isRight
        && (operator == "-" || operator == "/"))

/-- Visitor `LaTeXGenerator._visit` (latex_gen.py lines 99-141): a number
renders verbatim; a binary operation renders both children, wrapping a child
in spaced parentheses when `needsParens` requires it, and joins them with a
single space around the operator symbol. -/
def visit : Expr → Option String
  | .Number _ _ value => some value
  | .BinaryOp _ _ operator left right => do
    let opLatex ← BINARY_OPS operator
    let myPrecedence ← PRECEDENCE operator
    let l0 ← visit left
    let bl ← needsParens left myPrecedence false
    let ls := if bl then "( " ++ l0 ++ " )" else l0
    let r0 ← visit right
    let br ← needsParens right myPrecedence true
    let rs := if br then "( " ++ r0 ++ " )" else r0
    some (ls ++ " " ++ opLatex ++ " " ++ rs)

/-- Entry point `LaTeXGenerator.generate` (latex_gen.py lines 64-79): visit
the root and wrap the content in dollar delimiters. -/
def generate (ast : Expr) : Option String :=
  (visit ast).map (fun content => "$" ++ content ++ "$")

/-- Whole pipeline as composed by cli.py: tokenize, parse, generate; any
failure collapses to `none`. -/
def pipeline (text : String) : Option String :=
  match tokenize text with
  | .error _ => none
  | .ok toks =>
    match parse toks with
    | .error _ => none
    | .ok ast => generate ast

/-- Line-boundary characters of Python `str.splitlines`: newline, carriage
return, vertical tab, form feed, the three ASCII separators, next line, and
the two Unicode separator characters. -/
def isLineBoundary (c : Char) : Bool :=
  c = Char.ofNat 10 || c = Char.ofNat 13 || c = Char.ofNat 11 || c = Char.ofNat 12
    || c = Char.ofNat 28 || c = Char.ofNat 29 || c = Char.ofNat 30
    || c = Char.ofNat 133 || c = Char.ofNat 8232 || c = Char.ofNat 8233

/-- Accumulator-style core of Python `str.splitlines`: boundaries end the
current line and are dropped, a carriage return followed by a newline counts
as one boundary, and a final line without a trailing boundary is kept. -/
def splitlinesGo : List Char → List Char → List String
  | [], acc => if acc.isEmpty then [] else [String.mk acc.reverse]
  | [c], acc =>
    if isLineBoundary c then [String.mk acc.reverse]
    else splitlinesGo [] (c :: acc)
  | c :: d :: cs, acc =>
    if c = Char.ofNat 13 then
      if d = Char.ofNat 10 then String.mk acc.reverse :: splitlinesGo cs []
      else String.mk acc.reverse :: splitlinesGo (d :: cs) []
    else if isLineBoundary c then String.mk acc.reverse :: splitlinesGo (d :: cs) []
    else splitlinesGo (d :: cs) (c :: acc)

/-- Python `source.splitlines()` as used by errors.py line 47. -/
def pySplitlines (s : String) : List String :=
  splitlinesGo s.data []

/-- Right-aligned padding of a string to a given width with spaces, as the
Python format specification in errors.py line 113 produces. -/
def padLeft (width : Nat) (s : String) : String :=
  String.mk (List.replicate (width - s.length) ' ') ++ s

/-- Loop body of `ErrorFormatter._get_context` (errors.py lines 108-124):
each shown index contributes a numbered source row, and the error index
additionally contributes the caret row, placed after `column - 1` spaces.
An index past the available lines would render as the empty string. -/
def contextRows (lines : List String) (errorIdx column numWidth : Nat) :
    List Nat → List String
  | [] => []
  | idx :: idxs =>
    let lineContent := lines.getD idx ""
    let row := padLeft numWidth (Nat.repr (idx + 1)) ++ " | " ++ lineContent
    if idx = errorIdx then
      let caretPad := String.mk (List.replicate numWidth ' ') ++ " | "
      let caretLine := caretPad ++ String.mk (List.replicate (column - 1) ' ') ++ "^"
      row :: caretLine :: contextRows lines errorIdx column numWidth idxs
    else
      row :: contextRows lines errorIdx column numWidth idxs

/-- Range computation and assembly of `ErrorFormatter._get_context`
(errors.py lines 86-127): clamped window of line indices around the error
line, width taken from the largest shown 1-based line number, rows joined by
newlines. Natural-number subtraction performs the `max(0, ...)` clamps. -/
def getContext (lines : List String) (line column contextLines : Nat) : String :=
  let errorIdx := line - 1
  let startIdx := errorIdx - contextLines
  let endIdx := min lines.length (errorIdx + contextLines + 1)
  let numWidth := (Nat.repr endIdx).length
  String.intercalate "\n"
    (contextRows lines errorIdx column numWidth (List.range' startIdx (endIdx - startIdx)))

/-- Entry point `ErrorFormatter.format_error` (errors.py lines 49-84): the
header line, a blank line, then the context block. -/
def formatError (source message : String) (line column contextLines : Nat) : String :=
  "Error: " ++ message ++ "\n" ++ "" ++ "\n" ++
    getContext (pySplitlines source) line column contextLines

/-! ## Helper lemmas -/

/-- Advancing over a decimal digit moves one column to the right on the same
line, because a digit is never the newline character. -/
theorem advancePos_digit {c : Char} (h : c.isDigit = true) (line col : Nat) :
    advancePos c line col = (line, col + 1) := by
  have hc : c ≠ '\n' := by
    intro hcc
    rw [hcc] at h
    exact absurd h (by decide)
  simp [advancePos, hc]

/-- The digit loop consumes exactly a maximal digit run: on input made of a
digit block followed by a remainder that does not start with a digit, it
returns the block, the remainder, and the column advanced by the block
length. -/
theorem scanDigits_exact (ds : List Char) (rest : List Char) (line col : Nat)
    (hds : ∀ c ∈ ds, c.isDigit = true)
    (hrest : ∀ c, rest.head? = some c → c.isDigit = false) :
    scanDigits (ds ++ rest) line col = (ds, rest, line, col + ds.length) := by
  induction ds generalizing col with
  | nil =>
    cases rest with
    | nil => simp [scanDigits]
    | cons r rs =>
      have hr : r.isDigit = false := hrest r rfl
      simp [scanDigits, hr]
  | cons c cs ih =>
    have hc : c.isDigit = true := hds c (by simp)
    have hcs : ∀ x ∈ cs, x.isDigit = true := fun x hx => hds x (by simp [hx])
    simp [List.cons_append, scanDigits, hc, advancePos_digit hc, ih (col + 1) hcs,
      Prod.ext_iff]
    omega

/-- A scanned number token always has kind NUMBER and a value extending the
already-consumed character position. -/
theorem scanNumber_type_value (pre : String) (cs : List Char) (line col sl sc : Nat) :
    (scanNumber pre cs line col sl sc).1.type = .NUMBER ∧
      ∃ s, (scanNumber pre cs line col sl sc).1.value = pre ++ s := by
  have assoc4 : ∀ (p x y z : String), ((p ++ x) ++ y) ++ z = p ++ ((x ++ y) ++ z) := by
    intro p x y z
    simp [String.append_assoc]
  simp only [scanNumber]
  split
  · exact ⟨rfl, _, assoc4 pre _ _ _⟩
  · exact ⟨rfl, _, rfl⟩

/-- The number scanner on a digit block, a dot, a second digit block and a
remainder not starting with a digit: both blocks and the single dot are
consumed into the token text, the remainder is left in place, and the column
advances by the number of consumed characters. A second dot, in particular,
is never consumed, because it heads such a remainder. -/
theorem scanNumber_dot (pre : String) (d1 d2 rest : List Char) (line col sl sc : Nat)
    (hd1 : ∀ c ∈ d1, c.isDigit = true) (hd2 : ∀ c ∈ d2, c.isDigit = true)
    (hrest : ∀ c, rest.head? = some c → c.isDigit = false) :
    scanNumber pre (d1 ++ '.' :: (d2 ++ rest)) line col sl sc =
      (⟨.NUMBER, pre ++ String.mk d1 ++ "." ++ String.mk d2, sl, sc⟩, rest,
        line, col + d1.length + 1 + d2.length) := by
  have h1 : scanDigits (d1 ++ '.' :: (d2 ++ rest)) line col =
      (d1, '.' :: (d2 ++ rest), line, col + d1.length) :=
    scanDigits_exact d1 ('.' :: (d2 ++ rest)) line col hd1
      (by intro c h; cases h; decide)
  have h2 : scanDigits (d2 ++ rest) line (col + d1.length + 1) =
      (d2, rest, line, col + d1.length + 1 + d2.length) :=
    scanDigits_exact d2 rest line (col + d1.length + 1) hd2 hrest
  simp [scanNumber, h1, advancePos, h2]

/-- The number scanner when the dot is followed by no digit at all: the dot
is still consumed into the token text. -/
theorem scanNumber_bare_dot (pre : String) (d1 rest : List Char) (line col sl sc : Nat)
    (hd1 : ∀ c ∈ d1, c.isDigit = true)
    (hrest : ∀ c, rest.head? = some c → c.isDigit = false) :
    scanNumber pre (d1 ++ '.' :: rest) line col sl sc =
      (⟨.NUMBER, pre ++ String.mk d1 ++ ".", sl, sc⟩, rest, line, col + d1.length + 1) := by
  have h := scanNumber_dot pre d1 [] rest line col sl sc hd1 (by intro c h; cases h) hrest
  simpa [String.append_empty] using h

/-- The head character of an appended string is the head of the left part
whenever the left part is nonempty. -/
theorem strHead_append (a b : String) (c : Char) (h : a.data.head? = some c) :
    (a ++ b).data.head? = some c := by
  rw [String.data_append]
  cases ha : a.data with
  | nil => rw [ha] at h; cases h
  | cons x xs => rw [ha] at h; simpa using h

/-- The insufficient-operands message always begins with the letter O. -/
theorem insufficientMsg_head (v : String) : (insufficientMsg v).data.head? = some 'O' := by
  unfold insufficientMsg
  exact strHead_append _ _ _ (strHead_append _ _ _ (strHead_append _ _ _
    (strHead_append _ _ _ (by decide))))

/-- The excess-operands message always begins with the letter I. -/
theorem excessMsg_head (n : Nat) : (excessMsg n).data.head? = some 'I' := by
  unfold excessMsg
  exact strHead_append _ _ _ (strHead_append _ _ _ (by decide))

/-- The defensive unexpected-token message always begins with the letter U. -/
theorem unexpectedTokenMsg_head (v : String) :
    (unexpectedTokenMsg v).data.head? = some 'U' := by
  unfold unexpectedTokenMsg
  exact strHead_append _ _ _ (strHead_append _ _ _ (strHead_append _ _ _ (by decide)))

/-- Every error the parse loop can produce has a message starting with I, O
or E; in particular the defensive unexpected-token branch, whose message
starts with U, is never taken: the three guarded branches already cover all
six token kinds. -/
theorem parseLoop_error_head (eof : Token) (toks : List Token) (stack : List Expr)
    (e : ParserError) (h : parseLoop eof toks stack = .error e) :
    e.message.data.head? = some 'I' ∨ e.message.data.head? = some 'O' ∨
      e.message.data.head? = some 'E' := by
  induction toks generalizing stack with
  | nil =>
    simp only [parseLoop] at h
    injection h with h
    subst h
    left
    decide
  | cons t ts ih =>
    obtain ⟨ty, v, ln, co⟩ := t
    cases ty
    all_goals simp only [parseLoop, isOpType] at h
    case NUMBER => exact ih _ h
    case EOF =>
      simp only [finishParse] at h
      rcases stack with _ | ⟨x, _ | ⟨y, rest⟩⟩
      · injection h with h
        subst h
        right; right
        show ("Empty expression" : String).data.head? = some 'E'
        decide
      · cases h
      · injection h with h
        subst h
        left
        exact excessMsg_head _
    all_goals
      rcases stack with _ | ⟨x, _ | ⟨y, rest⟩⟩ <;> simp only [] at h
      case _ => injection h with h; subst h; right; left; exact insufficientMsg_head _
      case _ => injection h with h; subst h; right; left; exact insufficientMsg_head _
      case _ => exact ih _ h

/-- Rows emitted for a list of indices that avoids the error index: exactly
one numbered row per index, no caret row. -/
theorem contextRows_length_no_caret (lines : List String) (errorIdx column numWidth : Nat)
    (idxs : List Nat) (h : errorIdx ∉ idxs) :
    (contextRows lines errorIdx column numWidth idxs).length = idxs.length := by
  induction idxs with
  | nil => rfl
  | cons i is ih =>
    have hi : i ≠ errorIdx := by
      intro he
      exact h (he ▸ List.mem_cons_self i is)
    have his : errorIdx ∉ is := fun hm => h (List.mem_cons_of_mem _ hm)
    simp [contextRows, hi, ih his]

/-- Unequal head characters make unequal strings. -/
theorem str_ne_of_head (a b : String) (h : a.data.head? ≠ b.data.head?) : a ≠ b :=
  fun he => h (he ▸ rfl)

/-- The invalid-character message always begins with the letter U. -/
theorem unexpectedCharMsg_head (s : String) :
    (unexpectedCharMsg s).data.head? = some 'U' := by
  unfold unexpectedCharMsg
  exact strHead_append _ _ _ (strHead_append _ _ _ (strHead_append _ _ _ (by decide)))

/-- Skipping whitespace never lengthens the input. -/
theorem skipWhitespace_rest_le (cs : List Char) (line col : Nat) :
    (skipWhitespace cs line col).1.length ≤ cs.length := by
  induction cs generalizing line col with
  | nil => simp [skipWhitespace]
  | cons c cs ih =>
    by_cases h : isSpaceChar c = true
    · simp only [skipWhitespace, h, if_true]
      exact le_trans (ih _ _) (by simp)
    · simp [skipWhitespace, h]

/-- The digit loop never lengthens the input. -/
theorem scanDigits_rest_le (cs : List Char) (line col : Nat) :
    (scanDigits cs line col).2.1.length ≤ cs.length := by
  induction cs generalizing line col with
  | nil => simp [scanDigits]
  | cons c cs ih =>
    by_cases h : c.isDigit = true
    · simp only [scanDigits, h, if_true]
      exact le_trans (ih _ _) (by simp)
    · simp [scanDigits, h]

/-- The number scanner consumes at least as much as its first digit loop. -/
theorem scanNumber_rest_le (pre : String) (cs : List Char) (line col sl sc : Nat) :
    (scanNumber pre cs line col sl sc).2.1.length ≤ (scanDigits cs line col).2.1.length := by
  simp only [scanNumber]
  split
  · rename_i cs2 heq
    rw [heq]
    simp only [List.length_cons]
    exact le_trans (scanDigits_rest_le _ _ _) (by simp)
  · exact le_refl _

/-- A digit head is consumed by the digit loop before the rest is scanned. -/
theorem scanDigits_cons_digit (c : Char) (cs : List Char) (line col : Nat)
    (h : c.isDigit = true) :
    (scanDigits (c :: cs) line col).2.1 =
      (scanDigits cs (advancePos c line col).1 (advancePos c line col).2).2.1 := by
  simp [scanDigits, h]

/-- A successful token scan strictly consumes input: the remainder is at
most the tail of the scanned list. -/
theorem scanToken_rest_le (c : Char) (cs : List Char) (line col : Nat)
    (tok : Token) (rest : List Char) (l2 c2 : Nat)
    (h : scanToken (c :: cs) line col = .ok (tok, rest, l2, c2)) :
    rest.length ≤ cs.length := by
  simp only [scanToken] at h
  by_cases h1 : c = '+'
  · simp only [h1, if_true] at h
    injection h with h
    have hrest : cs = rest := congrArg (fun x => x.2.1) h
    subst hrest
    exact le_refl _
  · simp only [h1, if_false] at h
    by_cases h2 : c = '-'
    · simp only [h2, if_true] at h
      cases cs with
      | nil =>
        injection h with h
        have hrest : ([] : List Char) = rest := congrArg (fun x => x.2.1) h
        subst hrest
        exact le_refl _
      | cons d ds =>
        by_cases hd : d.isDigit = true
        · simp only [hd, if_true] at h
          injection h with h
          have hrest :
              (scanNumber "-" (d :: ds) (advancePos '-' line col).1
                (advancePos '-' line col).2 line col).2.1 = rest :=
            congrArg (fun x => x.2.1) h
          rw [← hrest]
          exact le_trans (scanNumber_rest_le _ _ _ _ _ _) (scanDigits_rest_le _ _ _)
        · simp only [hd, if_false] at h
          injection h with h
          have hrest : d :: ds = rest := congrArg (fun x => x.2.1) h
          subst hrest
          exact le_refl _
    · simp only [h2, if_false] at h
      by_cases h3 : c = '*'
      · simp only [h3, if_true] at h
        injection h with h
        have hrest : cs = rest := congrArg (fun x => x.2.1) h
        subst hrest
        exact le_refl _
      · simp only [h3, if_false] at h
        by_cases h4 : c = '/'
        · simp only [h4, if_true] at h
          injection h with h
          have hrest : cs = rest := congrArg (fun x => x.2.1) h
          subst hrest
          exact le_refl _
        · simp only [h4, if_false] at h
          by_cases h5 : c.isDigit = true
          · simp only [h5, if_true] at h
            injection h with h
            have hrest : (scanNumber "" (c :: cs) line col line col).2.1 = rest :=
              congrArg (fun x => x.2.1) h
            rw [← hrest]
            calc (scanNumber "" (c :: cs) line col line col).2.1.length
                ≤ (scanDigits (c :: cs) line col).2.1.length :=
                  scanNumber_rest_le _ _ _ _ _ _
              _ = (scanDigits cs (advancePos c line col).1
                    (advancePos c line col).2).2.1.length := by
                  rw [scanDigits_cons_digit c cs line col h5]
              _ ≤ cs.length := scanDigits_rest_le _ _ _
          · simp only [h5, if_false] at h
            cases h

/-- With fuel exceeding the input length the scanning loop never reports
fuel exhaustion: every iteration consumes at least one character, so the
fuel supplied by tokenize always suffices and the fuel counter is a faithful
rendering of the Python while loop. -/
theorem tokenizeFuel_no_fuel_error (fuel : Nat) (cs : List Char) (line col : Nat)
    (hfuel : cs.length < fuel) (e : LexerError)
    (h : tokenizeFuel fuel cs line col = .error e) : e.message ≠ "out of fuel" := by
  induction fuel generalizing cs line col e with
  | zero => omega
  | succ fuel ih =>
    simp only [tokenizeFuel] at h
    rcases hw : (skipWhitespace cs line col).1 with _ | ⟨c, cs2⟩
    · rw [hw] at h
      cases h
    · rw [hw] at h
      dsimp only at h
      rcases hst : scanToken (c :: cs2) (skipWhitespace cs line col).2.1
          (skipWhitespace cs line col).2.2 with e2 | ⟨tok, rest, l2, c2⟩
      · rw [hst] at h
        injection h with h
        subst h
        have he2 : ∃ s l3 c3, e2 = ⟨unexpectedCharMsg s, l3, c3⟩ := by
          revert hst
          simp only [scanToken]
          split_ifs <;> intro hst
          · cases hst
          · rcases cs2 with _ | ⟨d, ds⟩
            · cases hst
            · revert hst
              dsimp only
              split_ifs <;> intro hst <;> cases hst
          · cases hst
          · cases hst
          · cases hst
          · injection hst with hst
            exact ⟨_, _, _, hst.symm⟩
        obtain ⟨s, l3, c3, rfl⟩ := he2
        apply str_ne_of_head
        rw [unexpectedCharMsg_head]
        decide
      · rw [hst] at h
        dsimp only at h
        rcases hrec : tokenizeFuel fuel rest l2 c2 with e3 | toks
        · rw [hrec] at h
          injection h with h
          subst h
          have hr1 : rest.length ≤ cs2.length := scanToken_rest_le _ _ _ _ _ _ _ _ hst
          have hr2 : (c :: cs2).length ≤ cs.length := by
            rw [← hw]
            exact skipWhitespace_rest_le cs line col
          refine ih rest l2 c2 (by simp at hr2; omega) e3 hrec
        · rw [hrec] at h
          cases h

/-- The fuel supplied by tokenize always suffices: no result of the public
lexer entry point ever reports fuel exhaustion. -/
theorem tokenize_no_fuel_error (text : String) (e : LexerError)
    (h : tokenize text = .error e) : e.message ≠ "out of fuel" :=
  tokenizeFuel_no_fuel_error (text.length + 1) text.data 1 1 (Nat.lt_succ_self text.data.length) e h

/-! ## Claims -/

/-- C1: the claim states that an equal-precedence right child is wrapped in
parentheses when the PARENT operator is "-" or "/". The code instead tests
the CHILD operator against "-" and "/": on the tree 5 - (3 + 2), built from
the RPN input "5 3 2 + -", the right child is a BinaryOp of equal precedence
but its operator "+" is not in the tested pair, so no parentheses are
emitted and the output $5 - 3 + 2$ denotes (5 - 3) + 2, a different value.
This contradicts the comment in latex_gen.py lines 174-175 that the check
handles the left-associativity of "-" and "/". -/
theorem C1_generator_checks_child_operator :
    needsParens (.BinaryOp 1 7 "+" (.Number 1 3 "3") (.Number 1 5 "2")) 1 true = some false ∧
    generate (.BinaryOp 1 9 "-" (.Number 1 1 "5")
      (.BinaryOp 1 7 "+" (.Number 1 3 "3") (.Number 1 5 "2"))) = some "$5 - 3 + 2$" ∧
    pipeline "5 3 2 + -" = some "$5 - 3 + 2$" :=
  ⟨by decide, by decide, by decide⟩

/-- C2 counterexample: on source "5 3" followed by a newline, with the error
at line 2 column 1 (the EOF position, past the only source line), the
formatter output contains neither the error line rendered as an empty string
nor any caret row at all — the whole output has no caret character. -/
theorem C2_caret_missing_counterexample :
    formatError "5 3\n" "boom" 2 1 1 = "Error: boom\n\n1 | 5 3" ∧
    ('^' ∈ (formatError "5 3\n" "boom" 2 1 1).data → False) :=
  ⟨by decide, by decide⟩

/-- C2 (amended): when the error line number exceeds the number of source
lines, the clamped window of shown indices ends at or before the last real
line, so every index gets exactly one numbered row — the error line is never
rendered and no caret row is emitted; the empty-string fallback for an index
past the lines is dead code. -/
theorem C2_no_caret_past_last_line (src : String) (line column contextLines numWidth : Nat)
    (hline : 1 ≤ line) (hpast : (pySplitlines src).length < line) :
    (contextRows (pySplitlines src) (line - 1) column numWidth
        (List.range' (line - 1 - contextLines)
          (min (pySplitlines src).length (line - 1 + contextLines + 1)
            - (line - 1 - contextLines)))).length =
      min (pySplitlines src).length (line - 1 + contextLines + 1)
        - (line - 1 - contextLines) ∧
    (line - 1) ∉ List.range' (line - 1 - contextLines)
        (min (pySplitlines src).length (line - 1 + contextLines + 1)
          - (line - 1 - contextLines)) := by
  have hnot : (line - 1) ∉ List.range' (line - 1 - contextLines)
      (min (pySplitlines src).length (line - 1 + contextLines + 1)
        - (line - 1 - contextLines)) := by
    intro hm
    rw [List.mem_range'_1] at hm
    omega
  refine ⟨?_, hnot⟩
  rw [contextRows_length_no_caret _ _ _ _ _ hnot]
  exact List.length_range' _ _ _

/-- C2 witness: concrete instance of the amended statement, on the one-line
source with the error on line 2. -/
theorem C2_no_caret_witness :
    (contextRows (pySplitlines "5 3\n") 1 1 1 (List.range' 0 1)).length = 1 ∧
      1 ∉ List.range' 0 1 :=
  C2_no_caret_past_last_line "5 3\n" 2 1 1 1 (by decide) (by decide)

/-- C3: the full pipeline on "2 3 + 4 *" produces exactly the claimed
string; the star maps to the times command and the slash to the division
command; parenthesized groups carry single surrounding spaces, as the
further pipeline runs exhibit. -/
theorem C3_pipeline_and_symbols :
    pipeline "2 3 + 4 *" = some "$( 2 + 3 ) \\times 4$" ∧
    BINARY_OPS "*" = some "\\times" ∧
    BINARY_OPS "/" = some "\\div" ∧
    pipeline "5 3 + 2 *" = some "$( 5 + 3 ) \\times 2$" ∧
    pipeline "10 2 /" = some "$10 \\div 2$" :=
  ⟨by decide, by decide, by decide, by decide, by decide⟩

/-- C4: on an operator token with at least two stack items, the first popped
item (the stack top) becomes the right operand and the second becomes the
left operand of the new BinaryOp node, which is positioned at the operator
token; concretely, "5 3 +" parses to the addition of 5 on the left and 3 on
the right and generates $5 + 3$. -/
theorem C4_pop_order :
    (∀ (t : Token) (ts : List Token) (eof : Token) (r l : Expr) (stack : List Expr),
      isOpType t.type = true →
      parseLoop eof (t :: ts) (r :: l :: stack) =
        parseLoop eof ts (.BinaryOp t.line t.column (opStr t.type) l r :: stack)) ∧
    tokenize "5 3 +" = .ok
      [⟨.NUMBER, "5", 1, 1⟩, ⟨.NUMBER, "3", 1, 3⟩, ⟨.PLUS, "+", 1, 5⟩, ⟨.EOF, "", 1, 6⟩] ∧
    parse [⟨.NUMBER, "5", 1, 1⟩, ⟨.NUMBER, "3", 1, 3⟩, ⟨.PLUS, "+", 1, 5⟩, ⟨.EOF, "", 1, 6⟩]
      = .ok (.BinaryOp 1 5 "+" (.Number 1 1 "5") (.Number 1 3 "3")) ∧
    generate (.BinaryOp 1 5 "+" (.Number 1 1 "5") (.Number 1 3 "3")) = some "$5 + 3$" := by
  refine ⟨?_, by decide, by decide, by decide⟩
  intro t ts eof r l stack h
  obtain ⟨ty, v, ln, co⟩ := t
  cases ty <;> simp_all [parseLoop, isOpType, opStr]

/-- C4 witness: the pop-order equation applied to the concrete plus token of
"5 3 +" with the two number leaves on the stack. -/
theorem C4_pop_order_witness :
    parseLoop ⟨.EOF, "", 1, 6⟩ [⟨.PLUS, "+", 1, 5⟩] [.Number 1 3 "3", .Number 1 1 "5"] =
      parseLoop ⟨.EOF, "", 1, 6⟩ []
        [.BinaryOp 1 5 "+" (.Number 1 1 "5") (.Number 1 3 "3")] :=
  C4_pop_order.1 ⟨.PLUS, "+", 1, 5⟩ [] ⟨.EOF, "", 1, 6⟩
    (.Number 1 3 "3") (.Number 1 1 "5") [] (by decide)

/-- C5: an operator token reached with fewer than two stack items makes the
parse fail immediately with the requires-two-operands message positioned at
that token, with the stack untouched (the count is checked before any pop);
concretely, "5 +" fails at line 1 column 3. -/
theorem C5_insufficient_operands :
    (∀ (t : Token) (ts : List Token) (eof : Token) (stack : List Expr),
      isOpType t.type = true → stack.length < 2 →
      parseLoop eof (t :: ts) stack = .error ⟨insufficientMsg t.value, t.line, t.column⟩) ∧
    tokenize "5 +" = .ok [⟨.NUMBER, "5", 1, 1⟩, ⟨.PLUS, "+", 1, 3⟩, ⟨.EOF, "", 1, 4⟩] ∧
    parse [⟨.NUMBER, "5", 1, 1⟩, ⟨.PLUS, "+", 1, 3⟩, ⟨.EOF, "", 1, 4⟩]
      = .error ⟨insufficientMsg "+", 1, 3⟩ := by
  refine ⟨?_, by decide, by decide⟩
  intro t ts eof stack h hlen
  obtain ⟨ty, v, ln, co⟩ := t
  rcases stack with _ | ⟨x, _ | ⟨y, rest⟩⟩
  · cases ty <;> simp_all [parseLoop, isOpType]
  · cases ty <;> simp_all [parseLoop, isOpType]
  · simp only [List.length_cons] at hlen
    omega

/-- C5 witness: the insufficiency equation applied to the concrete plus
token of "5 +" with the single number leaf on the stack. -/
theorem C5_insufficient_operands_witness :
    parseLoop ⟨.EOF, "", 1, 4⟩ [⟨.PLUS, "+", 1, 3⟩] [.Number 1 1 "5"] =
      .error ⟨insufficientMsg "+", 1, 3⟩ :=
  C5_insufficient_operands.1 ⟨.PLUS, "+", 1, 3⟩ [] ⟨.EOF, "", 1, 4⟩
    [.Number 1 1 "5"] (by decide) (by decide)

/-- C6 counterexample: the claim says the input "5 3 2" reports 2 remaining
values; the code pushes three numbers and reports 3 remaining values at the
EOF token, and the two messages differ. -/
theorem C6_excess_count_counterexample :
    tokenize "5 3 2" = .ok
      [⟨.NUMBER, "5", 1, 1⟩, ⟨.NUMBER, "3", 1, 3⟩, ⟨.NUMBER, "2", 1, 5⟩, ⟨.EOF, "", 1, 6⟩] ∧
    parse [⟨.NUMBER, "5", 1, 1⟩, ⟨.NUMBER, "3", 1, 3⟩, ⟨.NUMBER, "2", 1, 5⟩, ⟨.EOF, "", 1, 6⟩]
      = .error ⟨excessMsg 3, 1, 6⟩ ∧
    excessMsg 3 ≠ excessMsg 2 :=
  ⟨by decide, by decide, by decide⟩

/-- C6 (amended): after the scan, an empty stack fails with the
empty-expression message at the EOF token (so the empty input fails at line
1 column 1), exactly one item is returned as the root, and more than one
item fails with the excess message carrying the stack size at the EOF token
(so "5 3 2" reports 3 remaining values at the EOF position 1:6). -/
theorem C6_post_scan_validation :
    (∀ (t : Token) (ts : List Token) (eof : Token),
      t.type = .EOF →
      parseLoop eof (t :: ts) [] = .error ⟨"Empty expression", eof.line, eof.column⟩) ∧
    (∀ (t : Token) (ts : List Token) (eof : Token) (x : Expr),
      t.type = .EOF → parseLoop eof (t :: ts) [x] = .ok x) ∧
    (∀ (t : Token) (ts : List Token) (eof : Token) (stack : List Expr),
      t.type = .EOF → 2 ≤ stack.length →
      parseLoop eof (t :: ts) stack =
        .error ⟨excessMsg stack.length, eof.line, eof.column⟩) ∧
    tokenize "" = .ok [⟨.EOF, "", 1, 1⟩] ∧
    parse [⟨.EOF, "", 1, 1⟩] = .error ⟨"Empty expression", 1, 1⟩ ∧
    parse [⟨.NUMBER, "5", 1, 1⟩, ⟨.NUMBER, "3", 1, 3⟩, ⟨.NUMBER, "2", 1, 5⟩, ⟨.EOF, "", 1, 6⟩]
      = .error ⟨excessMsg 3, 1, 6⟩ := by
  refine ⟨?_, ?_, ?_, by decide, by decide, by decide⟩
  · intro t ts eof h
    obtain ⟨ty, v, ln, co⟩ := t
    subst h
    simp [parseLoop, isOpType, finishParse]
  · intro t ts eof x h
    obtain ⟨ty, v, ln, co⟩ := t
    subst h
    simp [parseLoop, isOpType, finishParse]
  · intro t ts eof stack h hlen
    obtain ⟨ty, v, ln, co⟩ := t
    subst h
    rcases stack with _ | ⟨x, _ | ⟨y, rest⟩⟩
    · simp at hlen
    · simp at hlen
    · simp [parseLoop, isOpType, finishParse]

/-- C6 witness: the empty-stack branch applied at a concrete EOF token. -/
theorem C6_post_scan_validation_witness :
    parseLoop ⟨.EOF, "", 1, 1⟩ [⟨.EOF, "", 1, 1⟩] [] =
      .error ⟨"Empty expression", 1, 1⟩ :=
  C6_post_scan_validation.1 ⟨.EOF, "", 1, 1⟩ [] ⟨.EOF, "", 1, 1⟩ rfl

/-- C7: after a minus sign the lexer looks exactly one character ahead — if
that character is a decimal digit the minus starts a negative NUMBER literal
positioned at the minus sign; otherwise, including at the end of input, a
MINUS operator token is emitted at the minus position. -/
theorem C7_minus_lookahead :
    (∀ (c : Char) (cs : List Char) (line col : Nat), c.isDigit = true →
      scanToken ('-' :: c :: cs) line col = .ok (scanNumber "-" (c :: cs) line (col + 1) line col) ∧
      (scanNumber "-" (c :: cs) line (col + 1) line col).1.type = .NUMBER ∧
      ∃ s, (scanNumber "-" (c :: cs) line (col + 1) line col).1.value = "-" ++ s) ∧
    (∀ (c : Char) (cs : List Char) (line col : Nat), c.isDigit = false →
      scanToken ('-' :: c :: cs) line col = .ok (⟨.MINUS, "-", line, col⟩, c :: cs, line, col + 1)) ∧
    (∀ (line col : Nat),
      scanToken ['-'] line col = .ok (⟨.MINUS, "-", line, col⟩, [], line, col + 1)) := by
  refine ⟨?_, ?_, ?_⟩
  · intro c cs line col h
    refine ⟨?_, (scanNumber_type_value "-" (c :: cs) line (col + 1) line col).1,
      (scanNumber_type_value "-" (c :: cs) line (col + 1) line col).2⟩
    simp [scanToken, advancePos, h]
  · intro c cs line col h
    simp [scanToken, advancePos, h]
  · intro line col
    simp [scanToken, advancePos]

/-- C7 witness: the digit branch applied after the minus sign at the
concrete digit 5. -/
theorem C7_minus_lookahead_witness :
    scanToken ['-', '5'] 1 1 = .ok (scanNumber "-" ['5'] 1 2 1 1) ∧
      (scanNumber "-" ['5'] 1 2 1 1).1.type = .NUMBER ∧
      ∃ s, (scanNumber "-" ['5'] 1 2 1 1).1.value = "-" ++ s :=
  C7_minus_lookahead.1 '5' [] 1 1 (by decide)

/-- C8: a second dot after a number already holding one dot is not consumed:
the NUMBER token ends before it and the remainder starts with the dot; a dot
heading the input of the token scanner fails with the invalid-character
message at its position; and on the whole input "1.2.3" tokenization
produces the token text 1.2 and then fails at the second dot, line 1
column 4. -/
theorem C8_second_dot_two_step :
    (∀ (d1 d2 t : List Char) (pre : String) (line col sl sc : Nat),
      (∀ c ∈ d1, c.isDigit = true) → (∀ c ∈ d2, c.isDigit = true) →
      scanNumber pre (d1 ++ '.' :: (d2 ++ '.' :: t)) line col sl sc =
        (⟨.NUMBER, pre ++ String.mk d1 ++ "." ++ String.mk d2, sl, sc⟩, '.' :: t,
          line, col + d1.length + 1 + d2.length)) ∧
    (∀ (t : List Char) (line col : Nat),
      scanToken ('.' :: t) line col = .error ⟨unexpectedCharMsg ".", line, col⟩) ∧
    scanNumber "" ['1', '.', '2', '.', '3'] 1 1 1 1 =
      (⟨.NUMBER, "1.2", 1, 1⟩, ['.', '3'], 1, 4) ∧
    tokenize "1.2.3" = .error ⟨unexpectedCharMsg ".", 1, 4⟩ := by
  refine ⟨?_, ?_, by decide, by decide⟩
  · intro d1 d2 t pre line col sl sc h1 h2
    exact scanNumber_dot pre d1 d2 ('.' :: t) line col sl sc h1 h2
      (by intro c h; cases h; decide)
  · intro t line col
    have hdot : String.mk ['.'] = "." := rfl
    simp [scanToken, unexpectedCharMsg, hdot]

/-- C8 witness: the two-dot equation applied at the concrete blocks of
"1.2.3". -/
theorem C8_second_dot_witness :
    scanNumber "" ['1', '.', '2', '.', '3'] 1 1 1 1 =
      (⟨.NUMBER, "" ++ String.mk ['1'] ++ "." ++ String.mk ['2'], 1, 1⟩, ['.', '3'], 1, 4) :=
  C8_second_dot_two_step.1 ['1'] ['2'] ['3'] "" 1 1 1 1 (by decide) (by decide)

/-- C9: on any token list produced by the lexer the defensive
unexpected-token branch of the parser is unreachable — every parse error
carries a message different from the unexpected-token message, because the
number, operator and EOF branches already cover all six token kinds. -/
theorem C9_unexpected_token_unreachable :
    ∀ (text : String) (ts : List Token) (e : ParserError) (v : String),
      tokenize text = .ok ts → parse ts = .error e → e.message ≠ unexpectedTokenMsg v := by
  intro text ts e v htok hparse heq
  simp only [parse] at hparse
  have h := parseLoop_error_head _ ts [] e hparse
  rw [heq, unexpectedTokenMsg_head v] at h
  rcases h with h | h | h <;> exact absurd h (by decide)

/-- C9 witness: applied to the lexer output of "+", whose parse fails with
the insufficient-operands message. -/
theorem C9_unexpected_token_witness :
    insufficientMsg "+" ≠ unexpectedTokenMsg "x" :=
  C9_unexpected_token_unreachable "+" [⟨.PLUS, "+", 1, 1⟩, ⟨.EOF, "", 1, 2⟩]
    ⟨insufficientMsg "+", 1, 1⟩ "x" (by decide) (by decide)

/-- C10: a dot after the integer digits is consumed into the NUMBER token
even when no digit follows it, and tokenizing "5." succeeds with the token
text 5. at line 1 column 1 followed by EOF at line 1 column 3. -/
theorem C10_trailing_dot_accepted :
    (∀ (d1 t : List Char) (pre : String) (line col sl sc : Nat),
      (∀ c ∈ d1, c.isDigit = true) → (∀ c, t.head? = some c → c.isDigit = false) →
      scanNumber pre (d1 ++ '.' :: t) line col sl sc =
        (⟨.NUMBER, pre ++ String.mk d1 ++ ".", sl, sc⟩, t, line, col + d1.length + 1)) ∧
    tokenize "5." = .ok [⟨.NUMBER, "5.", 1, 1⟩, ⟨.EOF, "", 1, 3⟩] :=
  ⟨fun d1 t pre line col sl sc h1 h2 => scanNumber_bare_dot pre d1 t line col sl sc h1 h2,
    by decide⟩

/-- C10 witness: the bare-dot equation applied at the concrete input of
"5." itself. -/
theorem C10_trailing_dot_witness :
    scanNumber "" ['5', '.'] 1 1 1 1 = (⟨.NUMBER, "5.", 1, 1⟩, [], 1, 3) := by
  have h := C10_trailing_dot_accepted.1 ['5'] [] "" 1 1 1 1 (by decide) (by intro c hc; cases hc)
  exact h.trans (by decide)

end Rpn2Tex
